import Mathlib

/-!
# Verification of the EsperBERTo training notebook

This file is a shallow embedding of the single source notebook
`tutorial/Training a new Transformer Language Model from scratch.ipynb`.
The notebook is a linear sequence of shell commands and library API calls;
we embed the sequence of external operations as a list of steps, and each
API call as a record of the literal arguments the notebook passes to it.

Where a claim depends on the behaviour of an external library call (the
`tokenizers` encode pipeline, the `Trainer` checkpoint schedule), that
behaviour is modelled as a Lean function following the library's
documented semantics for the configuration the notebook sets up; the
configuration itself is taken verbatim from the notebook cells.
-/

/-- One external operation performed by a notebook cell, in the order the
cells appear.  Shell commands and library calls are both steps; the
`fillMask` step carries the literal sentence passed to the pipeline. -/
inductive Op where
  | downloadCorpus
  | pipUninstallTensorflow
  | pipInstallTransformers
  | tokenizerTrain
  | saveTokenizerModel
  | reloadTokenizer
  | setPostProcessor
  | enableTruncationStep
  | encodeExample
  | encodeExampleTokens
  | cudaCheck
  | makeRobertaConfig
  | makeModel
  | countParameters
  | makeDataset
  | makeDataCollator
  | makeTrainer
  | trainerTrain
  | trainerSaveModel
  | makePipeline
  | fillMask (sentence : String)
  deriving DecidableEq

/-- The notebook's cells in source order, as the list of external
operations they perform.  Cell `ae4e9e92` performs two operations
(setting the post-processor, then enabling truncation); every other code
cell contributes one step. -/
def notebookOps : List Op :=
  [ Op.downloadCorpus,
    Op.pipUninstallTensorflow,
    Op.pipInstallTransformers,
    Op.tokenizerTrain,
    Op.saveTokenizerModel,
    Op.reloadTokenizer,
    Op.setPostProcessor,
    Op.enableTruncationStep,
    Op.encodeExample,
    Op.encodeExampleTokens,
    Op.cudaCheck,
    Op.makeRobertaConfig,
    Op.makeModel,
    Op.countParameters,
    Op.makeDataset,
    Op.makeDataCollator,
    Op.makeTrainer,
    Op.trainerTrain,
    Op.trainerSaveModel,
    Op.makePipeline,
    Op.fillMask "La suno <mask>.",
    Op.fillMask "Jen la komenco de bela <mask>." ]

/-- The Python expression `Path(".").glob("**/*.txt")` matches exactly the
relative paths whose final component matches `*.txt`; since the suffix
`.txt` contains no path separator, a path matches exactly when the whole
path string ends in `.txt`. -/
def matchesTxtGlob (p : String) : Bool :=
  List.isSuffixOf ".txt".data p.data

/-- The notebook line `paths = [str(x) for x in Path(".").glob("**/*.txt")]`:
the files of a modelled working directory `fs` that match the glob. -/
def globTxtPaths (fs : List String) : List String :=
  fs.filter matchesTxtGlob

/-- The argument record of the call
`tokenizer.train(files=paths, vocab_size=52_000, min_frequency=2,
special_tokens=[...])`. -/
structure TokenizerTrainCall where
  files : List String
  vocab_size : Nat
  min_frequency : Nat
  special_tokens : List String

/-- The tokenizer-training call the notebook makes, given the contents
`fs` of the working directory at that point (the notebook computes
`paths` from the glob and passes it as `files`). -/
def tokenizerTrainCall (fs : List String) : TokenizerTrainCall :=
  { files := globTxtPaths fs
    vocab_size := 52000
    min_frequency := 2
    special_tokens := ["<s>", "<pad>", "</s>", "<unk>", "<mask>"] }

/-- The keyword arguments of the call `RobertaConfig(vocab_size=52_000,
max_position_embeddings=514, num_attention_heads=12, num_hidden_layers=6,
type_vocab_size=1)`, as name/value pairs in source order. -/
def robertaConfigArgs : List (String × Nat) :=
  [ ("vocab_size", 52000),
    ("max_position_embeddings", 514),
    ("num_attention_heads", 12),
    ("num_hidden_layers", 6),
    ("type_vocab_size", 1) ]

/-- Modelled from the spec: the spec states the model has hidden size 768.
The `RobertaConfig` class lives in the external `transformers` library and
is not part of this repository's source; its default `hidden_size`, which
the notebook does not override, is taken from the spec's figure. -/
def robertaDefaultHiddenSize : Nat := 768

/-- The hidden size the constructed configuration ends up with: the value
passed for `hidden_size` if one was passed, and the library default
otherwise. -/
def effectiveHiddenSize (args : List (String × Nat)) : Nat :=
  (args.lookup "hidden_size").getD robertaDefaultHiddenSize

/-- State of the reloaded `ByteLevelBPETokenizer` as far as the notebook
configures it: the truncation bound set by `enable_truncation` and the
`BertProcessing` post-processor, holding the (token, id) pairs for the
separator and the class token. -/
structure TokenizerState where
  truncationMaxLength : Option Nat
  postProcessor : Option ((String × Nat) × (String × Nat))

/-- The tokenizer right after the cell
`tokenizer = ByteLevelBPETokenizer("./EsperBERTo/vocab.json", "./EsperBERTo/merges.txt")`:
no truncation and no post-processor are configured yet. -/
def reloadedTokenizer : TokenizerState :=
  { truncationMaxLength := none, postProcessor := none }

/-- The assignment `tokenizer._tokenizer.post_processor = BertProcessing(sep, cls)`. -/
def setPostProcessorBert (sep cls : String × Nat) (t : TokenizerState) : TokenizerState :=
  { t with postProcessor := some (sep, cls) }

/-- The call `tokenizer.enable_truncation(max_length=...)`. -/
def enableTruncationTo (maxLength : Nat) (t : TokenizerState) : TokenizerState :=
  { t with truncationMaxLength := some maxLength }

/-- The tokenizer after the notebook's configuration cell: post-processor
`BertProcessing(("</s>", sepId), ("<s>", clsId))` followed by
`enable_truncation(max_length=512)`.  The ids come from
`tokenizer.token_to_id` on the trained vocabulary, which is a training
artifact, so they are parameters here. -/
def configuredTokenizer (sepId clsId : Nat) : TokenizerState :=
  enableTruncationTo 512
    (setPostProcessorBert ("</s>", sepId) ("<s>", clsId) reloadedTokenizer)

/-- Models the `tokenizers` library encode pipeline for a configured
state, per the library's documented post-processing semantics: the raw
token sequence is truncated to the configured maximum length minus the
number of tokens the post-processor adds (two for `BertProcessing`), and
the post-processor then wraps the sequence with the class token in front
and the separator token at the end. -/
def TokenizerState.encode (t : TokenizerState) (raw : List String) : List String :=
  let nAdded : Nat := match t.postProcessor with
    | some _ => 2
    | none => 0
  let truncated : List String := match t.truncationMaxLength with
    | some m => raw.take (m - nAdded)
    | none => raw
  match t.postProcessor with
  | some ((sep, _), (cls, _)) => cls :: truncated ++ [sep]
  | none => truncated

/-- The argument record of
`DataCollatorForLanguageModeling(tokenizer=tokenizer, mlm=True, mlm_probability=0.15)`. -/
structure DataCollatorForLanguageModeling where
  tokenizer : TokenizerState
  mlm : Bool
  mlm_probability : ℚ

/-- The data collator the notebook builds; its `tokenizer` argument is the
configured tokenizer, whose special-token ids are parameters. -/
def data_collator (sepId clsId : Nat) : DataCollatorForLanguageModeling :=
  { tokenizer := configuredTokenizer sepId clsId
    mlm := true
    mlm_probability := 0.15 }

/-- The argument record of the notebook's `TrainingArguments(...)` call. -/
structure TrainingArguments where
  output_dir : String
  overwrite_output_dir : Bool
  num_train_epochs : Nat
  per_gpu_train_batch_size : Nat
  save_steps : Nat
  save_total_limit : Nat
  prediction_loss_only : Bool

/-- The literal arguments the notebook passes to `TrainingArguments`. -/
def training_args : TrainingArguments :=
  { output_dir := "./EsperBERTo"
    overwrite_output_dir := true
    num_train_epochs := 1
    per_gpu_train_batch_size := 64
    save_steps := 10000
    save_total_limit := 2
    prediction_loss_only := true }

/-- Models the `Trainer` checkpoint schedule for the configured arguments:
during a run of `totalSteps` optimisation steps, a checkpoint is saved at
every positive multiple of `save_steps`. -/
def checkpointSteps (args : TrainingArguments) (totalSteps : Nat) : List Nat :=
  ((List.range (totalSteps / args.save_steps + 1)).map
      (fun k => k * args.save_steps)).filter (fun s => s != 0)

/-- Models the `Trainer` checkpoint retention policy: of the checkpoints
saved so far, only the most recent `save_total_limit` are kept in the
output directory. -/
def retainedCheckpoints (args : TrainingArguments) (totalSteps : Nat) : List Nat :=
  (checkpointSteps args totalSteps).drop
    ((checkpointSteps args totalSteps).length - args.save_total_limit)

/-- Recognises the fill-mask steps of the notebook. -/
def Op.isFillMask : Op → Bool
  | Op.fillMask _ => true
  | _ => false

/-- The sentences the notebook passes to the fill-mask pipeline, read off
the notebook's step list in order. -/
def fillMaskCalls : List String :=
  notebookOps.filterMap fun op =>
    match op with
    | Op.fillMask s => some s
    | _ => none

/-- Number of (possibly overlapping) occurrences of the token pattern
`pat` in a character sequence. -/
def countOccs (pat : List Char) : List Char → Nat
  | [] => 0
  | c :: t => (if List.isPrefixOf pat (c :: t) then 1 else 0) + countOccs pat t

/-- The mask token of the tokenizer's special-token set. -/
def maskToken : String := "<mask>"

/-- Execution of the notebook's steps under an environment `step` giving
each external operation's outcome.  The notebook contains no exception
handler, no retry and no recovery logic, so execution is plain sequencing:
the first failing step aborts the run with its error unchanged. -/
def runOps {ε : Type} (step : Op → Except ε Unit) : List Op → Except ε Unit
  | [] => Except.ok ()
  | op :: rest =>
    match step op with
    | Except.ok _ => runOps step rest
    | Except.error e => Except.error e

/-- An environment in which the corpus download fails and every other
operation succeeds; used to witness failure propagation. -/
def failDownload : Op → Except String Unit :=
  fun op => if op = Op.downloadCorpus then Except.error "download failed" else Except.ok ()

/-- Helper: running a step list whose prefix succeeds and whose next
element fails yields exactly that element's error. -/
theorem runOps_error_append {ε : Type} (step : Op → Except ε Unit) (e : ε) :
    ∀ (pre : List Op) (op : Op) (post : List Op),
      (∀ p ∈ pre, step p = Except.ok ()) → step op = Except.error e →
      runOps step (pre ++ op :: post) = Except.error e := by
  intro pre
  induction pre with
  | nil =>
      intro op post _ hop
      simp [runOps, hop]
  | cons q t ih =>
      intro op post hpre hop
      have hq : step q = Except.ok () := hpre q (by simp)
      rw [List.cons_append]
      simp only [runOps, hq]
      exact ih op post (fun p hp => hpre p (by simp [hp])) hop

/-- C1: The tokenizer-training API call is made with vocabulary size
52,000 and minimum token frequency 2, and with exactly the five special
tokens "<s>", "<pad>", "</s>", "<unk>", "<mask>", in that order,
whatever the working directory contains at that point. -/
theorem tokenizer_train_literal_params (fs : List String) :
    (tokenizerTrainCall fs).vocab_size = 52000 ∧
    (tokenizerTrainCall fs).min_frequency = 2 ∧
    (tokenizerTrainCall fs).special_tokens = ["<s>", "<pad>", "</s>", "<unk>", "<mask>"] ∧
    (tokenizerTrainCall fs).special_tokens.length = 5 :=
  ⟨rfl, rfl, rfl, rfl⟩

/-- C2: The model-construction call `RobertaConfig(...)` passes the
literal keyword arguments num_hidden_layers=6, num_attention_heads=12,
max_position_embeddings=514 and vocab_size=52000. -/
theorem roberta_config_literal_params :
    robertaConfigArgs.lookup "num_hidden_layers" = some 6 ∧
    robertaConfigArgs.lookup "num_attention_heads" = some 12 ∧
    robertaConfigArgs.lookup "max_position_embeddings" = some 514 ∧
    robertaConfigArgs.lookup "vocab_size" = some 52000 := by
  refine ⟨?_, ?_, ?_, ?_⟩ <;> rfl

/-- C3 counterexample: the claim that hidden size 768 is a literal
parameter of the model-construction call is false — no `hidden_size`
argument appears among the keyword arguments the notebook passes to
`RobertaConfig`. -/
theorem roberta_config_no_hidden_size_literal :
    ("hidden_size", (768 : Nat)) ∉ robertaConfigArgs := by decide

/-- C3 (amended): the model-construction call passes no hidden-size
argument at all; the hidden size of the resulting configuration is the
library default 768, so 768 is the effective hidden size but not a
literal parameter of the call. -/
theorem roberta_config_hidden_size_default :
    robertaConfigArgs.lookup "hidden_size" = none ∧
    effectiveHiddenSize robertaConfigArgs = 768 :=
  ⟨rfl, rfl⟩

/-- C4: the training step is configured with masked language modeling
enabled at masked-token probability 0.15, exactly one training epoch,
and per-GPU training batch size 64. -/
theorem training_step_literal_params (sepId clsId : Nat) :
    (data_collator sepId clsId).mlm = true ∧
    (data_collator sepId clsId).mlm_probability = 0.15 ∧
    training_args.num_train_epochs = 1 ∧
    training_args.per_gpu_train_batch_size = 64 :=
  ⟨rfl, rfl, rfl, rfl⟩

/-- C5: the notebook performs the corpus download, the tokenizer-training
call, the model-construction call, the trainer's train call and the
inference-pipeline construction each exactly where the claim places them:
each of the five steps occurs, and their first occurrences appear in the
stated order. -/
theorem notebook_step_order :
    Op.downloadCorpus ∈ notebookOps ∧
    Op.tokenizerTrain ∈ notebookOps ∧
    Op.makeRobertaConfig ∈ notebookOps ∧
    Op.trainerTrain ∈ notebookOps ∧
    Op.makePipeline ∈ notebookOps ∧
    notebookOps.indexOf Op.downloadCorpus < notebookOps.indexOf Op.tokenizerTrain ∧
    notebookOps.indexOf Op.tokenizerTrain < notebookOps.indexOf Op.makeRobertaConfig ∧
    notebookOps.indexOf Op.makeRobertaConfig < notebookOps.indexOf Op.trainerTrain ∧
    notebookOps.indexOf Op.trainerTrain < notebookOps.indexOf Op.makePipeline := by
  decide

/-- C6: the inference step consists of fill-mask calls against exactly the
two sentences "La suno <mask>." and "Jen la komenco de bela <mask>.",
each containing exactly one mask token, and these two calls are the last
two operations of the notebook. -/
theorem fill_mask_two_sentences :
    fillMaskCalls = ["La suno <mask>.", "Jen la komenco de bela <mask>."] ∧
    fillMaskCalls.length = 2 ∧
    fillMaskCalls.all (fun s => countOccs maskToken.data s.data == 1) = true ∧
    notebookOps.drop (notebookOps.length - 2)
      = [Op.fillMask "La suno <mask>.", Op.fillMask "Jen la komenco de bela <mask>."] := by
  refine ⟨?_, ?_, ?_, ?_⟩ <;> decide

/-- C7: the notebook defines no error handling of its own, so for any
outcome environment, if some step fails after all earlier steps
succeeded, the whole run fails with exactly that step's error, unchanged. -/
theorem notebook_failure_propagates {ε : Type} (step : Op → Except ε Unit) (e : ε)
    (pre : List Op) (op : Op) (post : List Op)
    (hsplit : notebookOps = pre ++ op :: post)
    (hpre : ∀ p ∈ pre, step p = Except.ok ())
    (hop : step op = Except.error e) :
    runOps step notebookOps = Except.error e := by
  rw [hsplit]
  exact runOps_error_append step e pre op post hpre hop

/-- Witness for C7: in an environment where the corpus download fails
with "download failed", the notebook run fails with exactly that error. -/
theorem notebook_failure_propagates_witness :
    runOps failDownload notebookOps = Except.error "download failed" :=
  notebook_failure_propagates failDownload "download failed" [] Op.downloadCorpus
    notebookOps.tail rfl (by simp) rfl

/-- C8: the files passed to the tokenizer-training call are exactly the
glob result for the working directory, and every path ending in ".txt"
that is present in the working directory is included in the training
input. -/
theorem tokenizer_input_is_txt_glob (fs : List String) (p : String) :
    (tokenizerTrainCall fs).files = globTxtPaths fs ∧
    (p ∈ fs → matchesTxtGlob p = true → p ∈ (tokenizerTrainCall fs).files) := by
  refine ⟨rfl, fun hp hm => ?_⟩
  simp only [tokenizerTrainCall, globTxtPaths, List.mem_filter]
  exact ⟨hp, hm⟩

/-- Witness for C8: with both the downloaded corpus and a second .txt
file present, the second .txt file is part of the training input too. -/
theorem tokenizer_input_is_txt_glob_witness :
    matchesTxtGlob "docs/extra.txt" = true ∧
    "docs/extra.txt" ∈ (tokenizerTrainCall ["oscar.eo.txt", "docs/extra.txt", "notes.md"]).files :=
  ⟨by decide,
    (tokenizer_input_is_txt_glob ["oscar.eo.txt", "docs/extra.txt", "notes.md"]
        "docs/extra.txt").2 (by decide) (by decide)⟩

/-- C9: after the reload-and-configure cell, every sequence the tokenizer
encodes has at most 512 tokens, begins with "<s>" and ends with "</s>". -/
theorem configured_tokenizer_encode_wrapped (sepId clsId : Nat) (raw : List String) :
    ((configuredTokenizer sepId clsId).encode raw).length ≤ 512 ∧
    ((configuredTokenizer sepId clsId).encode raw).head? = some "<s>" ∧
    ((configuredTokenizer sepId clsId).encode raw).getLast? = some "</s>" := by
  have henc : (configuredTokenizer sepId clsId).encode raw
      = "<s>" :: (raw.take 510 ++ ["</s>"]) := rfl
  refine ⟨?_, ?_, ?_⟩
  · rw [henc]
    simp only [List.length_cons, List.length_append, List.length_take,
      List.length_nil]
    omega
  · rw [henc]; rfl
  · rw [henc, ← List.cons_append, List.getLast?_concat]

/-- C10: training checkpointing is configured with save_steps 10000 and
save_total_limit 2 into the output directory "./EsperBERTo" with
overwriting enabled; under the modelled checkpoint schedule a save
happens at every positive multiple of 10,000 steps reached, and at most
2 checkpoints are ever retained. -/
theorem training_checkpoint_policy :
    training_args.save_steps = 10000 ∧
    training_args.save_total_limit = 2 ∧
    training_args.output_dir = "./EsperBERTo" ∧
    training_args.overwrite_output_dir = true ∧
    (∀ totalSteps : Nat, (retainedCheckpoints training_args totalSteps).length ≤ 2) ∧
    (∀ totalSteps k : Nat, 0 < k → k * 10000 ≤ totalSteps →
      k * 10000 ∈ checkpointSteps training_args totalSteps) := by
  refine ⟨rfl, rfl, rfl, rfl, ?_, ?_⟩
  · intro totalSteps
    have h2 : training_args.save_total_limit = 2 := rfl
    simp only [retainedCheckpoints, List.length_drop, h2]
    omega
  · intro totalSteps k hk hle
    have hss : training_args.save_steps = 10000 := rfl
    simp only [checkpointSteps, hss, List.mem_filter, List.mem_map, List.mem_range]
    refine ⟨⟨k, ?_, rfl⟩, ?_⟩
    · have hdiv : k ≤ totalSteps / 10000 :=
        (Nat.le_div_iff_mul_le (by norm_num)).mpr hle
      omega
    · have hne : k * 10000 ≠ 0 := Nat.mul_ne_zero hk.ne' (by norm_num)
      simpa [bne_iff_ne] using hne

/-- Witness for C10: in a run of 25,000 steps a checkpoint is saved at
step 10,000 and at most two checkpoints are retained. -/
theorem training_checkpoint_policy_witness :
    (retainedCheckpoints training_args 25000).length ≤ 2 ∧
    10000 ∈ checkpointSteps training_args 25000 := by
  refine ⟨training_checkpoint_policy.2.2.2.2.1 25000, ?_⟩
  have h := training_checkpoint_policy.2.2.2.2.2 25000 1 (by decide) (by decide)
  simpa using h
